import Mathlib

/-!
Verification of the recording-session state machine and pipeline of
`whisper-dictation.py` against its specification.

The Python source is shallowly embedded: each class's mutable state becomes a
Lean structure, each method becomes a pure function from the old state (plus
the inputs the method reads) to the new state together with the externally
visible calls/effects it makes.  Wall-clock timestamps are modelled as
rationals, key identities as naturals, int16 samples as integers, and the
float32 normalisation as exact rational arithmetic (every value int16/32768 is
exactly representable in float32, so the rational model is exact).
-/

namespace WhisperDictation

/-- The three public operations of `RecordingManager` (lines 127-149). -/
inductive Op
  | start
  | stop
  | toggle
deriving DecidableEq, Repr

/-- Synchronous state of `RecordingManager.__init__` (lines 119-125):
`recording` is the session-active boolean, `timerArmed` models whether a live
deadline timer exists.  The recorder and its thread are asynchronous
collaborators and are modelled separately (see the action traces and the
pipeline model below). -/
structure ManagerState where
  recording : Bool
  timerArmed : Bool
deriving DecidableEq, Repr

def ManagerState.init : ManagerState := ⟨false, false⟩

/-- Method `RecordingManager.start` (lines 127-134): no-op when already recording;
otherwise sets `recording := True`, starts the recorder thread (asynchronous,
not part of this synchronous state) and arms the deadline timer when a
`max_time` is configured. -/
def managerStart (hasMaxTime : Bool) (s : ManagerState) : ManagerState :=
  if s.recording then s else { recording := true, timerArmed := hasMaxTime }

/-- Method `RecordingManager.stop` (lines 136-143): no-op when idle; otherwise
cancels any armed timer, sets `recording := False` and signals the recorder
to stop. -/
def managerStop (s : ManagerState) : ManagerState :=
  if s.recording then { recording := false, timerArmed := false } else s

/-- Method `RecordingManager.toggle` (lines 145-149): dispatches to `stop` when
recording, else to `start`. -/
def managerToggle (hasMaxTime : Bool) (s : ManagerState) : ManagerState :=
  if s.recording then managerStop s else managerStart hasMaxTime s

def managerStep (hasMaxTime : Bool) (s : ManagerState) : Op → ManagerState
  | .start => managerStart hasMaxTime s
  | .stop => managerStop s
  | .toggle => managerToggle hasMaxTime s

/-- Run a finite sequence of manager operations from a state. -/
def managerRun (hasMaxTime : Bool) (s : ManagerState) (ops : List Op) : ManagerState :=
  ops.foldl (managerStep hasMaxTime) s

/-- Modelled from the spec's words (section 8, "Testable properties"): the
idempotent transition rule for `start` — a no-op when already active. -/
def specStartRule (active : Bool) : Bool :=
  if active then active else true

/-- Modelled from the spec's words: the idempotent transition rule for
`stop` — a no-op when idle. -/
def specStopRule (active : Bool) : Bool :=
  if active then false else active

/-- Modelled from the spec's words: `toggle` dispatches to `stop` when active
and to `start` when idle. -/
def specToggleRule (active : Bool) : Bool :=
  if active then specStopRule active else specStartRule active

/-- The fold of the spec's transition rules over one operation. -/
def specTransition (active : Bool) : Op → Bool
  | .start => specStartRule active
  | .stop => specStopRule active
  | .toggle => specToggleRule active

/-- One step of the code agrees with one step of the spec's rules on the
active flag. -/
theorem managerStep_recording (hasMaxTime : Bool) (s : ManagerState) (op : Op) :
    (managerStep hasMaxTime s op).recording = specTransition s.recording op := by
  cases op <;> cases h : s.recording <;>
    simp [managerStep, managerStart, managerStop, managerToggle,
      specTransition, specStartRule, specStopRule, specToggleRule, h]

theorem managerRun_recording (hasMaxTime : Bool) (s : ManagerState) (ops : List Op) :
    (managerRun hasMaxTime s ops).recording = ops.foldl specTransition s.recording := by
  induction ops generalizing s with
  | nil => rfl
  | cons op rest ih =>
      simp only [managerRun, List.foldl_cons] at *
      rw [ih, managerStep_recording]

/-- C3: For every finite sequence of `start`/`stop`/`toggle` calls on the
session manager, the active flag after each call equals the fold of the
sequence under the spec's idempotent transition rules: `start` is a no-op
when already active, `stop` is a no-op when idle, and `toggle` dispatches to
`stop` when active and `start` when idle.  ("After each call" is covered
because the statement quantifies over every sequence, hence over every prefix
of a longer sequence.) -/
theorem C3_manager_fold (hasMaxTime : Bool) (ops : List Op) :
    (managerRun hasMaxTime ManagerState.init ops).recording =
      ops.foldl specTransition false :=
  managerRun_recording hasMaxTime ManagerState.init ops

/-! ## Action traces for the start paths (claim C1)

`RecordingManager.start` and `Recorder.start` are straight-line code; their
synchronous bodies are embedded as literal lists of atomic actions in program
order, and the body of the spawned capture thread (`Recorder._record_impl`)
as a separate trace. -/

/-- Atomic observable actions of the start paths. -/
inductive Action
  | setManagerFlag (b : Bool)
  | setRecorderFlag (b : Bool)
  | spawnCaptureThread
  | spawnTimerThread
  | openStream
  | logLine
deriving DecidableEq, Repr

/-- Is this action the spawn of asynchronous work (a thread or a timer)? -/
def Action.isSpawn : Action → Bool
  | .spawnCaptureThread => true
  | .spawnTimerThread => true
  | _ => false

/-- Is this action the update of the manager's active boolean to `True`? -/
def Action.setsManagerTrue : Action → Bool
  | .setManagerFlag true => true
  | _ => false

/-- Is this action the update of the recorder's active boolean to `True`? -/
def Action.setsRecorderTrue : Action → Bool
  | .setRecorderFlag true => true
  | _ => false

/-- Method `Recorder.start` (lines 77-79): creates and starts the `_record_impl`
thread and returns; it touches no flag itself. -/
def recorderStartTrace : List Action := [.spawnCaptureThread]

/-- The first actions of `Recorder._record_impl` (lines 84-92), which run on
the spawned capture thread: it sets `self.recording = True` and then opens
the input stream. -/
def recordImplHeadTrace : List Action := [.setRecorderFlag true, .openStream]

/-- Method `RecordingManager.start` (lines 127-134): when already recording it does
nothing; otherwise it logs, sets `self.recording = True`, calls
`self.recorder.start(...)` (whose synchronous body is `recorderStartTrace`)
and, when a `max_time` is configured, creates and starts the deadline
timer. -/
def managerStartTrace (recording : Bool) (hasMaxTime : Bool) : List Action :=
  if recording then []
  else
    [.logLine, .setManagerFlag true] ++ recorderStartTrace ++
      (if hasMaxTime then [.spawnTimerThread] else [])

/-- Every spawn of asynchronous work in the trace is preceded by an action
satisfying `flagSet`. -/
def flagBeforeEverySpawn (flagSet : Action → Bool) (tr : List Action) : Prop :=
  ∀ i : Fin tr.length, (tr.get i).isSpawn = true →
    ∃ j : Fin tr.length, (j : ℕ) < (i : ℕ) ∧ flagSet (tr.get j) = true

instance (flagSet : Action → Bool) (tr : List Action) :
    Decidable (flagBeforeEverySpawn flagSet tr) := by
  unfold flagBeforeEverySpawn; infer_instance

/-- C1 counterexample: in `Recorder.start` the recorder's active boolean is
NOT updated before the asynchronous capture thread is spawned — the
synchronous body of `Recorder.start` consists of the spawn alone, and the
flag update happens inside the spawned thread.  So the claimed ordering
fails for the recorder that the session manager drives. -/
theorem C1_counterexample :
    ¬ flagBeforeEverySpawn Action.setsRecorderTrue recorderStartTrace := by
  decide

/-- C1 amended: in `RecordingManager.start` the session's active boolean is
updated synchronously before any asynchronous work (capture thread, deadline
timer) is spawned, for every invocation (any prior flag value, with or
without a configured `max_time`); in `Recorder.start`, by contrast, the
recorder's flag is the first action of the spawned thread body itself, so it
is updated asynchronously, after the spawn. -/
theorem C1_amended :
    (∀ recording hasMaxTime : Bool,
        flagBeforeEverySpawn Action.setsManagerTrue
          (managerStartTrace recording hasMaxTime)) ∧
      recordImplHeadTrace.head? = some (Action.setRecorderFlag true) := by
  constructor
  · decide
  · rfl

/-! ## Gesture detectors

Key identities are modelled as naturals and timestamps as rationals
(`time.time()` values).  Each callback returns the new detector state
together with the list of calls it makes on the recording manager, in order.
The manager's `recording` boolean, which `DoubleCommandKeyListener` reads, is
passed in explicitly. -/

/-- A call made on the recording manager by a detector callback. -/
inductive MgrCall
  | start
  | stop
  | toggle
deriving DecidableEq, Repr

/-- State of `DoubleCommandKeyListener.__init__` (lines 178-182): the
designated key is fixed (`cmd_r`); `last_press_time` starts at 0. -/
structure DoubleCmdState where
  lastPressTime : ℚ
deriving DecidableEq, Repr

def DoubleCmdState.init : DoubleCmdState := ⟨0⟩

/-- Callback `DoubleCommandKeyListener.on_key_press` (lines 184-191), for a press of
key `k` at time `t`: only the designated key is handled; when the manager is
idle and the elapsed time since the previous press is under 0.5 s it calls
`start()`; otherwise, when the manager is recording, it calls `stop()`;
the last-press timestamp is updated on every press of the designated key. -/
def doubleCmdOnKeyPress (listenerKey : ℕ) (s : DoubleCmdState)
    (mgrRecording : Bool) (k : ℕ) (t : ℚ) : DoubleCmdState × List MgrCall :=
  if k = listenerKey then
    (⟨t⟩,
      if !mgrRecording && decide (t - s.lastPressTime < 1/2) then [.start]
      else if mgrRecording then [.stop]
      else [])
  else (s, [])

/-- C5: for the double-tap toggle detector, a press of the designated key
while the session is idle calls `start()` iff the elapsed time since the
previous press of that key is under 0.5 s; a press of that key while the
session is recording calls `stop()` regardless of timing; and the last-press
timestamp is updated on every press of that key regardless of the branch
taken. -/
theorem C5_double_tap (listenerKey : ℕ) (s : DoubleCmdState) (t : ℚ) :
    ((doubleCmdOnKeyPress listenerKey s false listenerKey t).2 = [MgrCall.start] ↔
        t - s.lastPressTime < 1/2) ∧
      (doubleCmdOnKeyPress listenerKey s true listenerKey t).2 = [MgrCall.stop] ∧
      ∀ mgrRecording : Bool,
        (doubleCmdOnKeyPress listenerKey s mgrRecording listenerKey t).1.lastPressTime = t := by
  refine ⟨?_, ?_, ?_⟩
  · by_cases h : t - s.lastPressTime < 1/2 <;>
      simp [doubleCmdOnKeyPress, h]
  · simp [doubleCmdOnKeyPress]
  · intro mgrRecording
    simp [doubleCmdOnKeyPress]

/-- State of `PushToTalkListener.__init__` (lines 196-201): designated key
fixed (`cmd_l`), `active` starts false, `last_press_time` starts at 0. -/
structure PttState where
  active : Bool
  lastPressTime : ℚ
deriving DecidableEq, Repr

def PttState.init : PttState := ⟨false, 0⟩

/-- An externally visible effect of a push-to-talk callback: a feedback tone
of a given frequency, or a call on the recording manager. -/
inductive PttEffect
  | tone (frequency : ℕ)
  | call (c : MgrCall)
deriving DecidableEq, Repr

/-- Callback `PushToTalkListener.on_key_press` (lines 203-210), for a press of key `k`
at time `t`: only the designated key is handled; when not active and the
elapsed time since the previous press is under 0.5 s it becomes active, fires
a 300 Hz tone and calls `start()`; the last-press timestamp is updated on
every press of the designated key. -/
def pttOnKeyPress (listenerKey : ℕ) (s : PttState) (k : ℕ) (t : ℚ) :
    PttState × List PttEffect :=
  if k = listenerKey then
    if !s.active && decide (t - s.lastPressTime < 1/2) then
      (⟨true, t⟩, [.tone 300, .call .start])
    else (⟨s.active, t⟩, [])
  else (s, [])

/-- Callback `PushToTalkListener.on_key_release` (lines 212-216): on release of the
designated key while active, it clears `active`, fires a 600 Hz tone and
calls `stop()`. -/
def pttOnKeyRelease (listenerKey : ℕ) (s : PttState) (k : ℕ) :
    PttState × List PttEffect :=
  if k = listenerKey ∧ s.active then (⟨false, s.lastPressTime⟩, [.tone 600, .call .stop])
  else (s, [])

/-- C6: the push-to-talk detector becomes active and calls `start()` exactly
when, while not active, the designated key is pressed within 0.5 s of that
key's previous press (so a single press held without the quick second press
never starts a session), and a release of the key while active clears the
active flag and calls `stop()`. -/
theorem C6_push_to_talk (listenerKey : ℕ) (s : PttState) (t : ℚ) :
    ((PttEffect.call .start ∈ (pttOnKeyPress listenerKey s listenerKey t).2 ∧
        (pttOnKeyPress listenerKey s listenerKey t).1.active = true) ↔
      (s.active = false ∧ t - s.lastPressTime < 1/2)) ∧
    (s.active = true →
      (pttOnKeyRelease listenerKey s listenerKey).1.active = false ∧
        PttEffect.call .stop ∈ (pttOnKeyRelease listenerKey s listenerKey).2) := by
  constructor
  · by_cases ha : s.active = true
    · simp [pttOnKeyPress, ha]
    · have ha' : s.active = false := by simpa using ha
      by_cases ht : t - s.lastPressTime < (2 : ℚ)⁻¹
      · simp [pttOnKeyPress, ha', ht, one_div]
      · simp [pttOnKeyPress, ha', ht, one_div]
  · intro ha
    simp [pttOnKeyRelease, ha]

/-- Witness for C6 at concrete inputs: from the initial state, a press at
time 0.3 (within 0.5 s of the initial timestamp 0) starts a session, and a
release from an active state stops it. -/
theorem C6_push_to_talk_witness :
    ((PttEffect.call .start ∈ (pttOnKeyPress 7 PttState.init 7 (3/10)).2 ∧
        (pttOnKeyPress 7 PttState.init 7 (3/10)).1.active = true) ↔
      (PttState.init.active = false ∧ (3/10 : ℚ) - PttState.init.lastPressTime < 1/2)) ∧
    ((pttOnKeyRelease 7 ⟨true, 3/10⟩ 7).1.active = false ∧
      PttEffect.call .stop ∈ (pttOnKeyRelease 7 ⟨true, 3/10⟩ 7).2) :=
  ⟨(C6_push_to_talk 7 PttState.init (3/10)).1,
    (C6_push_to_talk 7 ⟨true, 3/10⟩ (3/10)).2 rfl⟩

/-- State of `GlobalKeyListener.__init__` (lines 151-156): pressed flags for
the two designated keys, both initially false. -/
structure ChordState where
  key1Pressed : Bool
  key2Pressed : Bool
deriving DecidableEq, Repr

def ChordState.init : ChordState := ⟨false, false⟩

/-- Callback `GlobalKeyListener.on_key_press` (lines 164-170): a press of `key1` sets
`key1_pressed`, else a press of `key2` sets `key2_pressed`; then, whatever
key was pressed, if both flags are set the manager's `toggle()` is called.
Returns the new state and whether `toggle()` was called. -/
def chordOnKeyPress (key1 key2 : ℕ) (s : ChordState) (k : ℕ) : ChordState × Bool :=
  let s' :=
    if k = key1 then { s with key1Pressed := true }
    else if k = key2 then { s with key2Pressed := true }
    else s
  (s', s'.key1Pressed && s'.key2Pressed)

/-- Callback `GlobalKeyListener.on_key_release` (lines 172-176): a release of `key1`
clears `key1_pressed`, else a release of `key2` clears `key2_pressed`. -/
def chordOnKeyRelease (key1 key2 : ℕ) (s : ChordState) (k : ℕ) : ChordState :=
  if k = key1 then { s with key1Pressed := false }
  else if k = key2 then { s with key2Pressed := false }
  else s

/-- A raw key event: press or release of a key. -/
inductive KeyEvent
  | press (k : ℕ)
  | release (k : ℕ)
deriving DecidableEq, Repr

/-- The key of an event. -/
def KeyEvent.key : KeyEvent → ℕ
  | .press k => k
  | .release k => k

/-- Run the chord listener over an event sequence, counting `toggle()`
calls. -/
def chordRun (key1 key2 : ℕ) (s : ChordState) : List KeyEvent → ChordState × ℕ
  | [] => (s, 0)
  | .press k :: rest =>
      let step := chordOnKeyPress key1 key2 s k
      let tail := chordRun key1 key2 step.1 rest
      (tail.1, (if step.2 then 1 else 0) + tail.2)
  | .release k :: rest => chordRun key1 key2 (chordOnKeyRelease key1 key2 s k) rest

/-- A press of `key1` leaves `key2Pressed` untouched. -/
theorem chordOnKeyPress_key2Pressed (key1 key2 : ℕ) (s : ChordState) :
    (chordOnKeyPress key1 key2 s key1).1.key2Pressed = s.key2Pressed := by
  simp [chordOnKeyPress]

theorem chordRun_only_key1 (key1 key2 : ℕ) (hne : key1 ≠ key2) (s : ChordState)
    (hs : s.key2Pressed = false) (evs : List KeyEvent)
    (hevs : ∀ e ∈ evs, e.key = key1) :
    (chordRun key1 key2 s evs).2 = 0 := by
  induction evs generalizing s with
  | nil => rfl
  | cons e rest ih =>
      cases e with
      | press k =>
          have hk : k = key1 := hevs (.press k) (List.mem_cons_self _ _)
          subst hk
          have h2 : (chordOnKeyPress k key2 s k).1.key2Pressed = false := by
            rw [chordOnKeyPress_key2Pressed k key2 s]; exact hs
          have hcall : (chordOnKeyPress k key2 s k).2 = false := by
            simp [chordOnKeyPress, hne, hs]
          simp only [chordRun, hcall, if_neg Bool.false_ne_true, Nat.zero_add]
          exact ih _ h2 fun e he => hevs e (List.mem_cons_of_mem _ he)
      | release k =>
          have hk : k = key1 := hevs (.release k) (List.mem_cons_self _ _)
          subst hk
          have h2 : (chordOnKeyRelease k key2 s k).key2Pressed = false := by
            simp [chordOnKeyRelease, hs]
          exact ih _ h2 fun e he => hevs e (List.mem_cons_of_mem _ he)

/-- C7: for the chord detector over events on its two (distinct) designated
keys: any sequence of presses/releases of key 1 alone never calls `toggle()`;
pressing key 1 then key 2 (both held) calls `toggle()` exactly once; and from
that point releasing key 2 and pressing it again while key 1 stays held calls
`toggle()` once more (two calls in total for press 1, press 2, release 2,
press 2). -/
theorem C7_chord (key1 key2 : ℕ) (hne : key1 ≠ key2) :
    (∀ evs : List KeyEvent, (∀ e ∈ evs, e.key = key1) →
        (chordRun key1 key2 ChordState.init evs).2 = 0) ∧
      (chordRun key1 key2 ChordState.init [.press key1, .press key2]).2 = 1 ∧
      (chordRun key1 key2 ChordState.init
          [.press key1, .press key2, .release key2, .press key2]).2 = 2 := by
  refine ⟨fun evs hevs => chordRun_only_key1 key1 key2 hne ChordState.init rfl evs hevs,
    ?_, ?_⟩ <;>
    simp [chordRun, chordOnKeyPress, chordOnKeyRelease, ChordState.init,
      hne, Ne.symm hne]

/-- Witness for C7 at concrete keys 0 and 1 and a concrete key-1-only event
sequence. -/
theorem C7_chord_witness :
    (chordRun 0 1 ChordState.init [.press 0, .release 0, .press 0]).2 = 0 ∧
      (chordRun 0 1 ChordState.init [.press 0, .press 1]).2 = 1 ∧
      (chordRun 0 1 ChordState.init
          [.press 0, .press 1, .release 1, .press 1]).2 = 2 :=
  ⟨(C7_chord 0 1 (by decide)).1 [.press 0, .release 0, .press 0] (by decide),
    (C7_chord 0 1 (by decide)).2.1, (C7_chord 0 1 (by decide)).2.2⟩

/-- C10: the chord detector evaluates its toggle condition on every key-press
event, not only on presses of the two designated keys: whenever both
designated keys' pressed flags are true, a press of any third, unrelated key
also calls `toggle()` again (and leaves the flags unchanged). -/
theorem C10_third_key_press (key1 key2 k : ℕ) (s : ChordState)
    (h1 : k ≠ key1) (h2 : k ≠ key2)
    (hp1 : s.key1Pressed = true) (hp2 : s.key2Pressed = true) :
    chordOnKeyPress key1 key2 s k = (s, true) := by
  simp [chordOnKeyPress, h1, h2, hp1, hp2]

/-- Witness for C10: with keys 0 and 1 both held, a press of key 5 calls
`toggle()`. -/
theorem C10_third_key_press_witness :
    chordOnKeyPress 0 1 ⟨true, true⟩ 5 = (⟨true, true⟩, true) :=
  C10_third_key_press 0 1 5 ⟨true, true⟩ (by decide) (by decide) rfl rfl

/-! ## Audio buffer assembly (claim C8)

Lines 103-104: `np.frombuffer(b''.join(frames), dtype=np.int16)` concatenates
the captured chunks in capture order, and `.astype(np.float32) / 32768.0`
scales each int16 sample by 1/32768.  Samples are modelled as integers and
the float32 results as exact rationals: every int16 sample has magnitude at
most 2^15, so int16/32768 is exactly representable in float32 and the
rational model loses nothing. -/

/-- Line 103: the int16 samples of all captured chunks, in capture order. -/
def joinedAudio (frames : List (List ℤ)) : List ℤ := frames.flatten

/-- Line 104: the normalized sample buffer handed to the transcriber. -/
def audioFp32 (frames : List (List ℤ)) : List ℚ :=
  (joinedAudio frames).map fun sample : ℤ => (sample : ℚ) / 32768

/-- A chunk of valid int16 samples. -/
def validInt16Chunk (chunk : List ℤ) : Prop :=
  ∀ sample ∈ chunk, -32768 ≤ sample ∧ sample ≤ 32767

instance (chunk : List ℤ) : Decidable (validInt16Chunk chunk) := by
  unfold validInt16Chunk; infer_instance

/-- C8: at session stop the captured int16 chunks are concatenated in capture
order and each sample is scaled by 1/32768; zero chunks yield an empty sample
array; the buffer's length equals the total int16 sample count; and for every
possible (valid int16) chunk contents every resulting sample lies in
[-1.0, 1.0]. -/
theorem C8_audio_assembly (frames : List (List ℤ))
    (hvalid : ∀ chunk ∈ frames, validInt16Chunk chunk) :
    audioFp32 [] = [] ∧
      audioFp32 frames = (joinedAudio frames).map (fun sample : ℤ => (sample : ℚ) / 32768) ∧
      (audioFp32 frames).length = (frames.map List.length).sum ∧
      ∀ q ∈ audioFp32 frames, -1 ≤ q ∧ q ≤ 1 := by
  refine ⟨rfl, rfl, ?_, ?_⟩
  · unfold audioFp32 joinedAudio
    rw [List.length_map, List.length_flatten]
  · intro q hq
    unfold audioFp32 joinedAudio at hq
    rw [List.mem_map] at hq
    obtain ⟨sample, hmem, rfl⟩ := hq
    rw [List.mem_flatten] at hmem
    obtain ⟨chunk, hchunk, hsample⟩ := hmem
    obtain ⟨hlo, hhi⟩ := hvalid chunk hchunk sample hsample
    have hlo' : (-32768 : ℚ) ≤ (sample : ℚ) := by exact_mod_cast hlo
    have hhi' : (sample : ℚ) ≤ 32767 := by exact_mod_cast hhi
    constructor
    · rw [le_div_iff₀ (by norm_num : (0 : ℚ) < 32768)]
      linarith
    · rw [div_le_one (by norm_num : (0 : ℚ) < 32768)]
      linarith

/-- Witness for C8 at concrete chunks holding the extreme int16 values. -/
theorem C8_audio_assembly_witness :
    (∀ chunk ∈ [[(-32768 : ℤ), 0, 32767], [1]], validInt16Chunk chunk) ∧
      (audioFp32 [[(-32768 : ℤ), 0, 32767], [1]]).length =
        ([[(-32768 : ℤ), 0, 32767], [1]].map List.length).sum ∧
      ∀ q ∈ audioFp32 [[(-32768 : ℤ), 0, 32767], [1]], -1 ≤ q ∧ q ≤ 1 :=
  ⟨by decide,
    (C8_audio_assembly [[(-32768 : ℤ), 0, 32767], [1]] (by decide)).2.2.1,
    (C8_audio_assembly [[(-32768 : ℤ), 0, 32767], [1]] (by decide)).2.2.2⟩

/-! ## Text emission (claim C9)

Lines 108-117: when the transcription is non-empty, each character is typed
individually, followed by a 2.5 ms sleep; an exception raised mid-loop is
caught and logged, leaving the characters already typed in place.  The
external text-injection collaborator is modelled by an oracle `failAfter`:
`some n` means the (n+1)-th injection call raises, `none` means no call
raises. -/

/-- The typing loop of lines 110-112, under oracle `failAfter`.  Returns the
characters actually injected (in order), the number of 2.5 ms sleeps
performed, and whether an exception was raised (and hence caught and logged
by lines 114-115). -/
def typeLoop (failAfter : Option ℕ) : List Char → List Char × ℕ × Bool
  | [] => ([], 0, false)
  | c :: rest =>
    match failAfter with
    | some 0 => ([], 0, true)
    | some (n + 1) =>
        let tail := typeLoop (some n) rest
        (c :: tail.1, tail.2.1 + 1, tail.2.2)
    | none =>
        let tail := typeLoop none rest
        (c :: tail.1, tail.2.1 + 1, tail.2.2)

/-- Lines 108-117: the emission step.  When the text is empty (falsy) nothing
is typed (only "No transcription text to type." is printed); otherwise the
typing loop runs inside try/except. -/
def emit (failAfter : Option ℕ) (text : List Char) : List Char × ℕ × Bool :=
  if text.isEmpty then ([], 0, false) else typeLoop failAfter text

theorem typeLoop_none (text : List Char) :
    typeLoop none text = (text, text.length, false) := by
  induction text with
  | nil => rfl
  | cons c rest ih => simp [typeLoop, ih]

theorem typeLoop_fail (k : ℕ) (text : List Char) (hk : k < text.length) :
    typeLoop (some k) text = (text.take k, k, true) := by
  induction text generalizing k with
  | nil => simp at hk
  | cons c rest ih =>
      cases k with
      | zero => rfl
      | succ n =>
          have hn : n < rest.length := by simpa using hk
          simp [typeLoop, ih n hn]

/-- C9: text emission is a no-op when the transcription text is empty;
otherwise it injects the characters one at a time, in order, with a 2.5 ms
delay after each (one sleep per injected character); and if an error occurs
mid-emission it is caught and logged while the characters already emitted
remain in place — no rollback. -/
theorem C9_emission (failAfter : Option ℕ) (text : List Char) (k : ℕ) :
    emit failAfter [] = ([], 0, false) ∧
      emit none text = (text, text.length, false) ∧
      (k < text.length → emit (some k) text = (text.take k, k, true)) := by
  refine ⟨rfl, ?_, ?_⟩
  · cases text with
    | nil => rfl
    | cons c rest => simp [emit, typeLoop_none]
  · intro hk
    have hne : text.isEmpty = false := by
      cases text with
      | nil => simp at hk
      | cons c rest => rfl
    simp [emit, hne, typeLoop_fail k text hk]

/-- Witness for C9: emitting "abc" with the third injection call failing
types exactly "ab", performs two sleeps, and reports the caught error. -/
theorem C9_emission_witness :
    (2 < (String.toList "abc").length) ∧
      emit (some 2) (String.toList "abc") =
        ((String.toList "abc").take 2, 2, true) :=
  ⟨by decide, (C9_emission (some 2) (String.toList "abc") 2).2.2 (by decide)⟩

/-! ## The capture→transcribe→emit pipeline and its error paths (C2, C4)

`Recorder._record_impl` (lines 84-117) is embedded as a function of an
environment of oracle outcomes for its fallible external calls.  The
schedule modelled is that of one session: `RecordingManager.start` has set
its flag to `True` and spawned this thread, and the only `stop()` call is
the one (if any) that ends the capture loop; `RecordingManager.stop` (lines
136-143) clears the manager's flag before clearing the recorder's, so when
the loop exits normally the manager is already idle, while an exception
raised before the loop observes the cleared flag escapes while the manager's
flag is still `True`.

Only the typing loop (lines 109-115) sits inside a try/except; `p.open`
(line 88), `stream.read` (line 96) and `self.transcriber.transcribe`
(line 106, i.e. `SpeechTranscriber.transcribe`, lines 62-66) are not
guarded, so their exceptions escape `_record_impl` uncaught and unlogged,
killing the pipeline thread. -/

/-- The unguarded fallible steps of `_record_impl` whose exceptions escape
the pipeline thread. -/
inductive StepError
  | deviceOpen
  | deviceRead
  | transcription
deriving DecidableEq, Repr

/-- Oracle outcomes for one run of `_record_impl`: whether `p.open` raises;
the outcomes of the successive `stream.read` calls made until the stop flag
is observed (`none` = that read raises); the outcome of `transcribe` on the
captured buffer (`none` = it raises); and the typing-failure oracle of
`emit`. -/
structure PipelineEnv where
  openFails : Bool
  reads : List (Option (List ℤ))
  transcribeResult : Option (List Char)
  typeFailAfter : Option ℕ
deriving DecidableEq, Repr

/-- The capture loop of lines 95-97 over the scripted read outcomes: the
chunks appended to `frames` in order, or `none` if some read raised. -/
def runReads : List (Option (List ℤ)) → Option (List (List ℤ))
  | [] => some []
  | none :: _ => none
  | some chunk :: rest => (runReads rest).map fun frames => chunk :: frames

/-- Observable outcome of one `_record_impl` run: the manager's active flag
when the pipeline thread ends, the uncaught exception (if any) that escaped
it, whether the code itself logged an error (only the except branch of lines
114-115 does), the characters typed, and the normalized buffer handed to the
transcriber. -/
structure PipelineResult where
  managerRecording : Bool
  uncaught : Option StepError
  errorLogged : Bool
  typed : List Char
  audio : List ℚ
deriving DecidableEq, Repr

/-- Method `Recorder._record_impl` (lines 84-117) under the oracle environment. -/
def recordImpl (env : PipelineEnv) : PipelineResult :=
  if env.openFails then
    { managerRecording := true, uncaught := some .deviceOpen,
      errorLogged := false, typed := [], audio := [] }
  else
    match runReads env.reads with
    | none =>
        { managerRecording := true, uncaught := some .deviceRead,
          errorLogged := false, typed := [], audio := [] }
    | some frames =>
        match env.transcribeResult with
        | none =>
            { managerRecording := false, uncaught := some .transcription,
              errorLogged := false, typed := [], audio := audioFp32 frames }
        | some text =>
            let emitted := emit env.typeFailAfter text
            { managerRecording := false, uncaught := none,
              errorLogged := emitted.2.2, typed := emitted.1,
              audio := audioFp32 frames }

/-- Did the run hit an error — an exception escaping the thread, or a caught
and logged typing error? -/
def errorOccurred (r : PipelineResult) : Prop :=
  r.uncaught ≠ none ∨ r.errorLogged = true

instance (r : PipelineResult) : Decidable (errorOccurred r) := by
  unfold errorOccurred; infer_instance

/-- The property C2 claims of every error exit path: the error is logged by
the code and the session ends idle. -/
def pipelineFailsSafe (env : PipelineEnv) : Prop :=
  errorOccurred (recordImpl env) →
    (recordImpl env).errorLogged = true ∧
      (recordImpl env).managerRecording = false

instance (env : PipelineEnv) : Decidable (pipelineFailsSafe env) := by
  unfold pipelineFailsSafe; infer_instance

/-- C2 counterexample: when opening the input stream raises (a device
error), the exception escapes `_record_impl` uncaught, nothing is logged,
and the session manager's flag is still `True` — the session is stuck in
Recording, refuting the claim that every error exit path logs the error and
ends in Idle. -/
theorem C2_counterexample :
    recordImpl ⟨true, [], some [], none⟩ =
        ⟨true, some .deviceOpen, false, [], []⟩ ∧
      ¬ pipelineFailsSafe ⟨true, [], some [], none⟩ := by
  constructor
  · rfl
  · decide

/-- C2 amended: only emission errors are caught and logged, and on that path
(as on every path that reaches transcription) the session is already Idle,
because the `stop()` that ended the capture loop reset the manager first.
Capture errors — stream open or read raising — escape the pipeline thread
uncaught and unlogged and leave the manager's flag `True` (no stop-equivalent
reset exists on those paths); a transcription error likewise escapes uncaught
and unlogged, though with the session already Idle. -/
theorem C2_amended (env : PipelineEnv) :
    (env.openFails = true →
        recordImpl env = ⟨true, some .deviceOpen, false, [], []⟩) ∧
      (env.openFails = false → runReads env.reads = none →
        recordImpl env = ⟨true, some .deviceRead, false, [], []⟩) ∧
      (∀ frames, env.openFails = false → runReads env.reads = some frames →
        env.transcribeResult = none →
        recordImpl env = ⟨false, some .transcription, false, [], audioFp32 frames⟩) ∧
      (∀ frames text, env.openFails = false → runReads env.reads = some frames →
        env.transcribeResult = some text →
        recordImpl env =
          ⟨false, none, (emit env.typeFailAfter text).2.2,
            (emit env.typeFailAfter text).1, audioFp32 frames⟩) := by
  refine ⟨?_, ?_, ?_, ?_⟩
  · intro ho
    simp [recordImpl, ho]
  · intro ho hr
    simp [recordImpl, ho, hr]
  · intro frames ho hr ht
    simp [recordImpl, ho, hr, ht]
  · intro frames text ho hr ht
    simp [recordImpl, ho, hr, ht]

/-- Witness for C2 amended, exercising all four paths at concrete
environments: an open failure, a read failure, a transcription failure, and
a typing failure (logged, session idle). -/
theorem C2_amended_witness :
    recordImpl ⟨true, [some [3]], some [], none⟩ =
        ⟨true, some .deviceOpen, false, [], []⟩ ∧
      recordImpl ⟨false, [some [3], none], some [], none⟩ =
        ⟨true, some .deviceRead, false, [], []⟩ ∧
      recordImpl ⟨false, [some [3]], none, none⟩ =
        ⟨false, some .transcription, false, [], audioFp32 [[3]]⟩ ∧
      recordImpl ⟨false, [some [3]], some ['h', 'i'], some 1⟩ =
        ⟨false, none, (emit (some 1) ['h', 'i']).2.2,
          (emit (some 1) ['h', 'i']).1, audioFp32 [[3]]⟩ :=
  ⟨(C2_amended ⟨true, [some [3]], some [], none⟩).1 rfl,
    (C2_amended ⟨false, [some [3], none], some [], none⟩).2.1 rfl rfl,
    (C2_amended ⟨false, [some [3]], none, none⟩).2.2.1 [[3]] rfl rfl rfl,
    (C2_amended ⟨false, [some [3]], some ['h', 'i'], some 1⟩).2.2.2
      [[3]] ['h', 'i'] rfl rfl rfl⟩

/-- The property C4 claims of a transcription error: recovered locally — the
error is logged, no text is emitted, and no crash escapes the pipeline
task. -/
def transcribeErrorRecovered (env : PipelineEnv) : Prop :=
  env.transcribeResult = none →
    (recordImpl env).uncaught = none ∧
      (recordImpl env).errorLogged = true ∧
      (recordImpl env).typed = []

instance (env : PipelineEnv) : Decidable (transcribeErrorRecovered env) := by
  unfold transcribeErrorRecovered; infer_instance

/-- C4 counterexample: `transcribe` is called outside the try/except (line
106 vs lines 109-115), so when the transcription collaborator raises, the
exception escapes the pipeline thread uncaught and nothing is logged —
refuting the claimed local recovery.  (No text is emitted, but only because
the thread dies first.) -/
theorem C4_counterexample :
    recordImpl ⟨false, [some [1, 2]], none, none⟩ =
        ⟨false, some .transcription, false, [], audioFp32 [[1, 2]]⟩ ∧
      ¬ transcribeErrorRecovered ⟨false, [some [1, 2]], none, none⟩ := by
  constructor
  · rfl
  · decide

/-- C4 amended: when the transcription collaborator raises, the exception
propagates out of the pipeline thread uncaught; the pipeline logs nothing
and emits no text (the emission step is never reached); the session is
already Idle at that point, since the `stop()` that ended capture preceded
the transcription call. -/
theorem C4_amended (env : PipelineEnv) (frames : List (List ℤ))
    (ho : env.openFails = false) (hr : runReads env.reads = some frames)
    (ht : env.transcribeResult = none) :
    (recordImpl env).uncaught = some .transcription ∧
      (recordImpl env).errorLogged = false ∧
      (recordImpl env).typed = [] ∧
      (recordImpl env).managerRecording = false := by
  simp [recordImpl, ho, hr, ht]

/-- Witness for C4 amended at a concrete environment. -/
theorem C4_amended_witness :
    (recordImpl ⟨false, [some [7]], none, some 0⟩).uncaught = some .transcription ∧
      (recordImpl ⟨false, [some [7]], none, some 0⟩).errorLogged = false ∧
      (recordImpl ⟨false, [some [7]], none, some 0⟩).typed = [] ∧
      (recordImpl ⟨false, [some [7]], none, some 0⟩).managerRecording = false :=
  C4_amended ⟨false, [some [7]], none, some 0⟩ [[7]] rfl rfl rfl

end WhisperDictation
